import Mathlib

/-!
Verification of the balanced-partition + resilient bulk-aggregation pipeline
of the `scripts` repository (three Python utilities):

* `merge_pdf/merge_into_n_pdfs.py` — `chunkify` (the Partitioner) and `main`;
* `merge_markdown_from_google_drive/merge_markdown.py` — `safe_download_md`
  (the Resilient Item Fetcher), `merge_folder` (the Aggregation Writer) and
  the driver loop of `main`;
* `download_github_issues.py` — the ceil-based issue chunking and writer.

Each Python function is shallowly embedded as an executable Lean definition;
the `for` loops become structural recursion on an explicit fuel equal to the
number of remaining iterations, network calls become an explicit
attempt-indexed oracle, and filesystem writes become accumulated values.
-/

/-- Result of one call of `drive.CreateFile({'id': fid}).GetContentString(...)`:
either the text, an `HttpError` carrying `e.resp.status`, or any other
exception (`except Exception` branch in the source). -/
inductive FetchResult where
  | success (text : String)
  | httpError (status : Nat)
  | otherError (msg : String)
deriving Repr, DecidableEq

/-- How `safe_download_md` terminates: `ok (some t)` is `return <text>`,
`ok none` is the `return None` after the loop, `raised e` is an exception
escaping to the caller. -/
inductive Outcome where
  | ok (text : Option String)
  | raised (e : FetchResult)
deriving Repr, DecidableEq

/-- One observable back-off wait (`time.sleep(2 ** attempt)`), recording the
attempt number, the wait in seconds and the failure that caused it. -/
structure RetryEvent where
  attempt : Nat
  wait : Nat
  reason : FetchResult
deriving Repr, DecidableEq

/-- Everything observable about one `safe_download_md` call: how it ended,
the sleeps it performed, and how many download attempts it made. -/
structure RunResult where
  outcome : Outcome
  events : List RetryEvent
  attempts : Nat
deriving Repr, DecidableEq

/-- `TRANSIENT_CODES = {500, 502, 503, 504}` from `merge_markdown.py`. -/
def TRANSIENT_CODES : List Nat := [500, 502, 503, 504]

/-- `MAX_RETRIES = 3` from `merge_markdown.py`. -/
def MAX_RETRIES : Nat := 3

/-- `SEPARATOR = '\n\n---\n'` from `merge_markdown.py`. -/
def SEPARATOR : String := "\n\n---\n"

/-- A failure is transient exactly when it is an `HttpError` whose status is
in `TRANSIENT_CODES` (the designated recoverable set of the source). -/
def isTransient : FetchResult → Bool
  | .httpError s => TRANSIENT_CODES.contains s
  | _ => false

/-- The loop body of `safe_download_md`.  `attempt` is the Python loop
variable (`range(1, MAX_RETRIES + 1)`), `made` counts download attempts
performed so far, `events` the sleeps so far, and `fuel` the remaining loop
iterations (initially `maxRetries`); when the loop finishes the function
executes `return None`. -/
def safeDownloadAux (src : Nat → FetchResult) (maxRetries : Nat) :
    Nat → Nat → List RetryEvent → Nat → RunResult
  | _, made, events, 0 => ⟨Outcome.ok none, events, made⟩
  | attempt, made, events, fuel + 1 =>
    match src attempt with
    | .success t => ⟨Outcome.ok (some t), events, made + 1⟩
    | .httpError s =>
      if TRANSIENT_CODES.contains s then
        safeDownloadAux src maxRetries (attempt + 1) (made + 1)
          (events ++ [⟨attempt, 2 ^ attempt, .httpError s⟩]) fuel
      else ⟨Outcome.raised (.httpError s), events, made + 1⟩
    | .otherError m =>
      if attempt < maxRetries then
        safeDownloadAux src maxRetries (attempt + 1) (made + 1)
          (events ++ [⟨attempt, 2 ^ attempt, .otherError m⟩]) fuel
      else ⟨Outcome.raised (.otherError m), events, made + 1⟩

/-- `safe_download_md(drive, fid)` with the network modelled by `src`, the
attempt-indexed result of the download call.  `maxRetries` is `MAX_RETRIES`
(left as a parameter, as §4.2 of the design does). -/
def safeDownloadMd (src : Nat → FetchResult) (maxRetries : Nat) : RunResult :=
  safeDownloadAux src maxRetries 1 0 [] maxRetries

/-- `f"{SEPARATOR}# {title}\n\n{text}"` — the block `merge_folder` writes for
one markdown file. -/
def renderItem (title text : String) : String :=
  SEPARATOR ++ ("# " ++ title ++ "\n\n" ++ text)

/-- Observable state of one `merge_folder` call: whether the output file was
opened (`out_path.open('w')`), the sequence of `fout.write` calls, the items
skipped after exhausted retries, and an exception that escaped, if any. -/
structure FolderOutcome where
  created : Bool
  writes : List String
  skipped : List (String × String)
  raised : Option FetchResult
deriving Repr, DecidableEq

/-- The `for title, fid in tqdm(items, ...)` loop of `merge_folder`.
An exception raised by `safe_download_md` escapes the loop (the `with` block
closes the file but the partial writes remain). -/
def mergeLoop (fetchOf : String → Nat → FetchResult) :
    List (String × String) → List String → List (String × String) → FolderOutcome
  | [], writes, skipped => ⟨true, writes, skipped, none⟩
  | (title, fid) :: rest, writes, skipped =>
    match (safeDownloadMd (fetchOf fid) MAX_RETRIES).outcome with
    | .ok (some text) => mergeLoop fetchOf rest (writes ++ [renderItem title text]) skipped
    | .ok none => mergeLoop fetchOf rest writes (skipped ++ [(title, fid)])
    | .raised e => ⟨true, writes, skipped, some e⟩

/-- `merge_folder(drive, folder)` for one bucket: `items` are the
`(title, fid)` pairs enumerated by `recurse_md_files`, `fetchOf fid` is the
attempt-indexed download oracle for file `fid`.  An empty bucket is reported
and no file is created; otherwise the file is opened and the loop runs. -/
def mergeFolder (fetchOf : String → Nat → FetchResult)
    (items : List (String × String)) : FolderOutcome :=
  if items.isEmpty then ⟨false, [], [], none⟩
  else mergeLoop fetchOf items [] []

/-- The bytes in the artifact: concatenation of all `fout.write` calls. -/
def artifactContent (r : FolderOutcome) : String := String.join r.writes

/-- The `for folder in top_folders: merge_folder(drive, folder)` loop of
`main` in `merge_markdown.py`.  If a `merge_folder` call raises, the
exception propagates out of `main` and no later folder is processed; the
outcome of the raising folder (with its partial writes) is still on disk. -/
def runFolders (fetchOf : String → Nat → FetchResult) :
    List (String × List (String × String)) → List (String × FolderOutcome)
  | [] => []
  | (fname, items) :: rest =>
    let r := mergeFolder fetchOf items
    if r.raised.isNone then (fname, r) :: runFolders fetchOf rest else [(fname, r)]

/-- `max(1, min(n_chunks, len(items)))` — the clamped effective bucket count
from `chunkify` in `merge_into_n_pdfs.py` (`n_chunks` is a Python `int` and
may be non-positive). -/
def effectiveBuckets (nChunks : Int) (len : Nat) : Nat :=
  (max 1 (min nChunks (len : Int))).toNat

/-- The `for i in range(n_chunks)` loop of `chunkify`: `i` is the loop index,
`start` the running slice start, `fuel` the remaining iterations; each step
emits the slice `items[start:end]` with `end = start + base + (1 if i < rem
else 0)`. -/
def chunkifyLoop (items : List α) (base rem : Nat) :
    Nat → Nat → Nat → List (List α)
  | _, _, 0 => []
  | i, start, fuel + 1 =>
    ((items.drop start).take (base + if i < rem then 1 else 0)) ::
      chunkifyLoop items base rem (i + 1)
        (start + (base + if i < rem then 1 else 0)) fuel

/-- `chunkify(items, n_chunks)` from `merge_into_n_pdfs.py`:
`n_chunks = max(1, min(n_chunks, len(items)))`, then
`base, rem = divmod(len(items), n_chunks)` and the slicing loop. -/
def chunkify (items : List α) (nChunks : Int) : List (List α) :=
  let k := effectiveBuckets nChunks items.length
  chunkifyLoop items (items.length / k) (items.length % k) 0 0 k

/-- The zero-items guard of `main` in `merge_into_n_pdfs.py`: with no PDF
files it prints `No PDFs found ...` and returns before calling `chunkify`,
so no merged output is produced; otherwise the chunks are merged. -/
def pdfMainChunks (pdfFiles : List α) (nOutputs : Int) : List (List α) :=
  if pdfFiles.isEmpty then [] else chunkify pdfFiles nOutputs

/-- The `while i < len` structure of `issues[i : i + per_file]` chunking in
`download_github_issues.py`, unrolled from `range(0, len(issues), per_file)`:
`fuel` bounds the iteration count (the step `per_file` is at least 1 whenever
the list is nonempty, so `issues.length` iterations always suffice). -/
def githubChunksLoop (issues : List α) (perFile : Nat) :
    Nat → Nat → List (List α)
  | _, 0 => []
  | i, fuel + 1 =>
    if i < issues.length then
      ((issues.drop i).take perFile) :: githubChunksLoop issues perFile (i + perFile) fuel
    else []

/-- The chunking of `main` in `download_github_issues.py`:
`per_file = math.ceil(len(issues) / FILES_WANTED)` (for the integer sizes in
range this equals `(len + k - 1) / k`), then one file per slice
`issues[i : i + per_file]`. -/
def githubChunks (issues : List α) (filesWanted : Nat) : List (List α) :=
  let perFile := (issues.length + filesWanted - 1) / filesWanted
  githubChunksLoop issues perFile 0 issues.length

/-- The enumeration guard of `main` in `download_github_issues.py`:
`if not issues: raise SystemExit(...)` — zero items end the run with an
error exit, otherwise the issues are chunked and written. -/
def githubMain (issues : List α) (filesWanted : Nat) :
    Except String (List (List α)) :=
  if issues.isEmpty then
    Except.error "Nothing found – check label / repo spelling."
  else Except.ok (githubChunks issues filesWanted)

/-- `max(sizes) - min(sizes) <= 1`, phrased pairwise: every size exceeds
every other by at most one. -/
def gapOK (szs : List Nat) : Bool :=
  szs.all fun a => szs.all fun b => a ≤ b + 1

/-- Number of positions at which `sep` occurs in `s` (as a character
substring). -/
def countOccs (sep s : String) : Nat :=
  ((List.range s.data.length).filter fun i => sep.data.isPrefixOf (s.data.drop i)).length

/-- A content source that fails with a transient 503 on every attempt. -/
def src503 : Nat → FetchResult := fun _ => .httpError 503

/-- A content source that raises a non-`HttpError` exception on every
attempt (the `except Exception` branch of `safe_download_md`). -/
def srcBoom : Nat → FetchResult := fun _ => .otherError "boom"

/-- A content source that fails with a non-transient 404 on every attempt. -/
def src404 : Nat → FetchResult := fun _ => .httpError 404

/-- A content source whose first attempt is a transient 503 and whose second
attempt is a non-transient 404. -/
def srcC6 : Nat → FetchResult := fun n =>
  if n < 2 then .httpError 503 else .httpError 404

/-- Bucket of five items; used for the skip-and-continue scenario. -/
def itemsC3 : List (String × String) :=
  [("t1", "f1"), ("t2", "f2"), ("t3", "f3"), ("t4", "f4"), ("t5", "f5")]

/-- Fetch behaviour where item `f3` fails with a non-transient 404 and all
other items download on the first attempt. -/
def fetchC3bad : String → Nat → FetchResult := fun fid _ =>
  if fid = "f3" then .httpError 404 else .success fid

/-- Fetch behaviour where item `f3` fails with a transient 503 on every
attempt and all other items download on the first attempt. -/
def fetchC3good : String → Nat → FetchResult := fun fid _ =>
  if fid = "f3" then .httpError 503 else .success fid

/-- Fetch behaviour where every item downloads on the first attempt. -/
def fetchC4 : String → Nat → FetchResult := fun fid _ => .success ("body " ++ fid)

/-- The text each item of `fetchC4` downloads to. -/
def textsC4 : String → String := fun fid => "body " ++ fid

/-- A two-item bucket. -/
def itemsC4 : List (String × String) := [("a", "f1"), ("b", "f2")]

/-- The outcome of merging the two-item bucket with all fetches succeeding. -/
def c4run : FolderOutcome := mergeFolder fetchC4 itemsC4

/-- Fetch behaviour where item `b2` fails with a non-transient 404 and all
other items download on the first attempt. -/
def fetchC9 : String → Nat → FetchResult := fun fid _ =>
  if fid = "b2" then .httpError 404 else .success fid

/-- Two folders: folder `A` merges fully; folder `B` hits the fatal 404 on
its second item. -/
def foldersC9 : List (String × List (String × String)) :=
  [("A", [("x", "a1")]), ("B", [("y", "b1"), ("z", "b2")])]


/-! ### Helper lemmas about the Partitioner -/

lemma effectiveBuckets_pos (n : Int) (len : Nat) : 1 ≤ effectiveBuckets n len := by
  unfold effectiveBuckets; omega

lemma effectiveBuckets_eq_min (k : Nat) (len : Nat) (h1 : 1 ≤ k) (h2 : 1 ≤ len) :
    effectiveBuckets (k : Int) len = min k len := by
  unfold effectiveBuckets; omega

lemma effectiveBuckets_of_nonpos (n : Int) (len : Nat) (h : n ≤ 0) :
    effectiveBuckets n len = 1 := by
  unfold effectiveBuckets; omega

lemma effectiveBuckets_zero_len (n : Int) (h : 1 ≤ n) :
    effectiveBuckets n 0 = 1 := by
  unfold effectiveBuckets; omega

lemma range'_map_chunk (base rem d : Nat) :
    (List.range' 0 (rem + d)).map (fun j => base + if j < rem then 1 else 0) =
      List.replicate rem (base + 1) ++ List.replicate d base := by
  rw [Nat.add_comm rem d, ← List.range'_append_1 0 rem d, List.map_append]
  congr 1
  · calc (List.range' 0 rem).map (fun j => base + if j < rem then 1 else 0)
        = (List.range' 0 rem).map (fun _ => base + 1) := by
          apply List.map_congr_left
          intro j hj
          rw [List.mem_range'_1] at hj
          have hlt : j < rem := by omega
          simp [hlt]
      _ = List.replicate rem (base + 1) := by
          rw [List.map_const', List.length_range']
  · calc (List.range' (0 + rem) d).map (fun j => base + if j < rem then 1 else 0)
        = (List.range' (0 + rem) d).map (fun _ => base) := by
          apply List.map_congr_left
          intro j hj
          rw [List.mem_range'_1] at hj
          have hge : ¬ j < rem := by omega
          simp [hge]
      _ = List.replicate d base := by
          rw [List.map_const', List.length_range']

lemma chunkifyLoop_map_length (items : List α) (base rem : Nat) :
    ∀ (fuel i start : Nat),
      start + ((List.range' i fuel).map (fun j => base + if j < rem then 1 else 0)).sum
        ≤ items.length →
      (chunkifyLoop items base rem i start fuel).map List.length =
        (List.range' i fuel).map (fun j => base + if j < rem then 1 else 0) := by
  intro fuel
  induction fuel with
  | zero => intro i start h; simp [chunkifyLoop]
  | succ fuel ih =>
    intro i start h
    simp only [List.range'_succ, List.map_cons, List.sum_cons] at h
    simp only [List.range'_succ, chunkifyLoop, List.map_cons]
    set c := if i < rem then 1 else 0 with hc
    congr 1
    · rw [List.length_take, List.length_drop]
      omega
    · exact ih (i + 1) (start + (base + c)) (by omega)

lemma chunkify_map_length (items : List α) (n : Int) :
    (chunkify items n).map List.length =
      List.replicate (items.length % effectiveBuckets n items.length)
        (items.length / effectiveBuckets n items.length + 1) ++
      List.replicate
        (effectiveBuckets n items.length - items.length % effectiveBuckets n items.length)
        (items.length / effectiveBuckets n items.length) := by
  simp only [chunkify]
  set k := effectiveBuckets n items.length with hkdef
  have hkpos : 1 ≤ k := effectiveBuckets_pos n items.length
  set base := items.length / k with hbase
  set r := items.length % k with hr
  have hrk : r < k := by rw [hr]; exact Nat.mod_lt _ (by omega)
  have hrange : (List.range' 0 k).map (fun j => base + if j < r then 1 else 0)
      = List.replicate r (base + 1) ++ List.replicate (k - r) base := by
    have h := range'_map_chunk base r (k - r)
    rwa [Nat.add_sub_cancel' (Nat.le_of_lt hrk)] at h
  have hsum : ((List.range' 0 k).map (fun j => base + if j < r then 1 else 0)).sum
      = items.length := by
    rw [hrange, List.sum_append, List.sum_replicate, List.sum_replicate,
      smul_eq_mul, smul_eq_mul]
    have h1 : r + k * base = items.length := Nat.mod_add_div items.length k
    have h2 : r * base ≤ k * base := Nat.mul_le_mul_right base (Nat.le_of_lt hrk)
    rw [Nat.mul_add, Nat.mul_one, Nat.sub_mul]
    set x := r * base
    set y := k * base
    omega
  rw [chunkifyLoop_map_length items base r k 0 0 (by simp [hsum])]
  exact hrange

/-! ### Helper lemmas about the Resilient Fetcher -/

lemma safeDownloadAux_transient (src : Nat → FetchResult) (mr : Nat) :
    ∀ (fuel attempt made : Nat) (events : List RetryEvent),
      (∀ n, attempt ≤ n → n < attempt + fuel → isTransient (src n) = true) →
      safeDownloadAux src mr attempt made events fuel =
        ⟨Outcome.ok none,
          events ++ (List.range' attempt fuel).map (fun n => ⟨n, 2 ^ n, src n⟩),
          made + fuel⟩ := by
  intro fuel
  induction fuel with
  | zero => intro attempt made events _; simp [safeDownloadAux]
  | succ fuel ih =>
    intro attempt made events h
    have ht : isTransient (src attempt) = true := h attempt (Nat.le_refl _) (by omega)
    cases hsrc : src attempt with
    | success t => rw [hsrc] at ht; simp [isTransient] at ht
    | httpError s =>
      rw [hsrc] at ht
      have hcont : TRANSIENT_CODES.contains s = true := by simpa [isTransient] using ht
      rw [safeDownloadAux]
      simp only [hsrc, hcont, if_true]
      rw [ih (attempt + 1) (made + 1)
        (events ++ [(⟨attempt, 2 ^ attempt, .httpError s⟩ : RetryEvent)])
        (by intro n h1 h2; exact h n (by omega) (by omega))]
      simp [List.range'_succ, hsrc, List.append_assoc, RunResult.mk.injEq]
      omega
    | otherError m => rw [hsrc] at ht; simp [isTransient] at ht

lemma safeDownloadAux_raise (src : Nat → FetchResult) (mr : Nat) (j s : Nat)
    (hj : src j = .httpError s) (hs : TRANSIENT_CODES.contains s = false) :
    ∀ (fuel attempt made : Nat) (events : List RetryEvent),
      attempt ≤ j → j < attempt + fuel →
      (∀ n, attempt ≤ n → n < j → isTransient (src n) = true) →
      safeDownloadAux src mr attempt made events fuel =
        ⟨Outcome.raised (.httpError s),
          events ++ (List.range' attempt (j - attempt)).map (fun n => ⟨n, 2 ^ n, src n⟩),
          made + (j - attempt) + 1⟩ := by
  intro fuel
  induction fuel with
  | zero => intro attempt made events h1 h2 _; omega
  | succ fuel ih =>
    intro attempt made events h1 h2 h3
    by_cases heq : attempt = j
    · subst heq
      rw [safeDownloadAux]
      simp only [hj, hs, if_false]
      simp
    · have hlt : attempt < j := by omega
      have ht : isTransient (src attempt) = true := h3 attempt (Nat.le_refl _) hlt
      cases hsrc : src attempt with
      | success t => rw [hsrc] at ht; simp [isTransient] at ht
      | httpError s2 =>
        rw [hsrc] at ht
        have hcont : TRANSIENT_CODES.contains s2 = true := by simpa [isTransient] using ht
        rw [safeDownloadAux]
        simp only [hsrc, hcont, if_true]
        rw [ih (attempt + 1) (made + 1)
          (events ++ [(⟨attempt, 2 ^ attempt, .httpError s2⟩ : RetryEvent)])
          (by omega) (by omega)
          (by intro n hn1 hn2; exact h3 n (by omega) hn2)]
        have hsub : j - attempt = (j - (attempt + 1)) + 1 := by omega
        rw [hsub, List.range'_succ, List.map_cons]
        simp [hsrc, List.append_assoc, RunResult.mk.injEq]
        omega
      | otherError m => rw [hsrc] at ht; simp [isTransient] at ht

lemma safeDownload_first_success (src : Nat → FetchResult) (t : String)
    (h : src 1 = .success t) :
    safeDownloadMd src MAX_RETRIES = ⟨Outcome.ok (some t), [], 1⟩ := by
  rw [safeDownloadMd, MAX_RETRIES, safeDownloadAux, h]

/-! ### Helper lemmas about the Aggregation Writer -/

lemma mergeLoop_nil (fetchOf : String → Nat → FetchResult)
    (writes : List String) (skipped : List (String × String)) :
    mergeLoop fetchOf [] writes skipped = ⟨true, writes, skipped, none⟩ := rfl

lemma mergeLoop_cons_success (fetchOf : String → Nat → FetchResult)
    (title fid : String) (rest : List (String × String))
    (writes : List String) (skipped : List (String × String)) (t : String)
    (h : (safeDownloadMd (fetchOf fid) MAX_RETRIES).outcome = Outcome.ok (some t)) :
    mergeLoop fetchOf ((title, fid) :: rest) writes skipped =
      mergeLoop fetchOf rest (writes ++ [renderItem title t]) skipped := by
  rw [mergeLoop, h]

lemma mergeLoop_cons_skip (fetchOf : String → Nat → FetchResult)
    (title fid : String) (rest : List (String × String))
    (writes : List String) (skipped : List (String × String))
    (h : (safeDownloadMd (fetchOf fid) MAX_RETRIES).outcome = Outcome.ok none) :
    mergeLoop fetchOf ((title, fid) :: rest) writes skipped =
      mergeLoop fetchOf rest writes (skipped ++ [(title, fid)]) := by
  rw [mergeLoop, h]

lemma mergeLoop_cons_raise (fetchOf : String → Nat → FetchResult)
    (title fid : String) (rest : List (String × String))
    (writes : List String) (skipped : List (String × String)) (e : FetchResult)
    (h : (safeDownloadMd (fetchOf fid) MAX_RETRIES).outcome = Outcome.raised e) :
    mergeLoop fetchOf ((title, fid) :: rest) writes skipped =
      ⟨true, writes, skipped, some e⟩ := by
  rw [mergeLoop, h]

lemma mergeLoop_created (fetchOf : String → Nat → FetchResult) :
    ∀ (items : List (String × String)) (writes : List String)
      (skipped : List (String × String)),
      (mergeLoop fetchOf items writes skipped).created = true := by
  intro items
  induction items with
  | nil => intro writes skipped; rfl
  | cons p rest ih =>
    intro writes skipped
    obtain ⟨title, fid⟩ := p
    rw [mergeLoop]
    cases hout : (safeDownloadMd (fetchOf fid) MAX_RETRIES).outcome with
    | ok txt => cases txt with
      | some t => exact ih _ _
      | none => exact ih _ _
    | raised e => rfl

lemma mergeLoop_all_success (fetchOf : String → Nat → FetchResult)
    (texts : String → String) :
    ∀ (items : List (String × String)) (writes : List String)
      (skipped : List (String × String)),
      (∀ p ∈ items, fetchOf p.2 1 = .success (texts p.2)) →
      mergeLoop fetchOf items writes skipped =
        ⟨true, writes ++ items.map (fun p => renderItem p.1 (texts p.2)), skipped, none⟩ := by
  intro items
  induction items with
  | nil => intro writes skipped _; simp [mergeLoop_nil]
  | cons p rest ih =>
    intro writes skipped h
    obtain ⟨title, fid⟩ := p
    have h1 : fetchOf fid 1 = .success (texts fid) := h (title, fid) (by simp)
    rw [mergeLoop_cons_success fetchOf title fid rest writes skipped (texts fid)
      (by rw [safeDownload_first_success (fetchOf fid) (texts fid) h1])]
    rw [ih (writes ++ [renderItem title (texts fid)]) skipped
      (by intro q hq; exact h q (by simp [hq]))]
    simp [List.append_assoc]

/-! ### Claims about the Partitioner -/

/-- Claim C1 (counterexample): the claim quantifies over "the partitioner"
and its sources include the issue chunking of `download_github_issues.py`
(`per_file = ceil(total / k)`); at `total = 10, k = 3` that chunking yields
bucket sizes `[4, 4, 2]`, whose max exceeds its min by 2, violating
`max(sizes) - min(sizes) <= 1`. -/
theorem githubChunks_unbalanced :
    (githubChunks (List.range 10) 3).map List.length = [4, 4, 2] ∧
    gapOK ((githubChunks (List.range 10) 3).map List.length) = false := by
  decide

/-- Claim C1 (amended): for every item list and every `k ≥ 1`, the bucket
sizes produced by `chunkify` (the partitioner of `merge_into_n_pdfs.py`)
sum to the total item count and pairwise differ by at most one
(`max(sizes) - min(sizes) <= 1`).  The ceil-based chunking of
`download_github_issues.py` does not satisfy the balance bound. -/
theorem chunkify_balanced (items : List α) (k : Nat) (_h : 1 ≤ k) :
    ((chunkify items (k : Int)).map List.length).sum = items.length ∧
    gapOK ((chunkify items (k : Int)).map List.length) = true := by
  rw [chunkify_map_length items (k : Int)]
  set kk := effectiveBuckets (k : Int) items.length with hkk
  have hkpos : 1 ≤ kk := effectiveBuckets_pos _ _
  set base := items.length / kk with hbase
  set r := items.length % kk with hrdef
  have hr : r < kk := by rw [hrdef]; exact Nat.mod_lt _ (by omega)
  constructor
  · rw [List.sum_append, List.sum_replicate, List.sum_replicate,
      smul_eq_mul, smul_eq_mul]
    have h1 : r + kk * base = items.length := Nat.mod_add_div items.length kk
    have h2 : r * base ≤ kk * base := Nat.mul_le_mul_right base (Nat.le_of_lt hr)
    rw [Nat.mul_add, Nat.mul_one, Nat.sub_mul]
    set x := r * base
    set y := kk * base
    omega
  · rw [gapOK, List.all_eq_true]
    intro a ha
    rw [List.all_eq_true]
    intro b hb
    rw [List.mem_append] at ha hb
    have hav : a = base + 1 ∨ a = base := by
      rcases ha with ha | ha
      · exact Or.inl (List.eq_of_mem_replicate ha)
      · exact Or.inr (List.eq_of_mem_replicate ha)
    have hbv : b = base + 1 ∨ b = base := by
      rcases hb with hb | hb
      · exact Or.inl (List.eq_of_mem_replicate hb)
      · exact Or.inr (List.eq_of_mem_replicate hb)
    simp only [decide_eq_true_eq]
    rcases hav with rfl | rfl <;> rcases hbv with rfl | rfl <;> omega

/-- Claim C1 (witness): the amended theorem applied at a 7-item list split
into 3 buckets. -/
theorem chunkify_balanced_witness :
    1 ≤ 3 ∧
    (((chunkify (List.range 7) ((3 : Nat) : Int)).map List.length).sum
        = (List.range 7).length ∧
      gapOK ((chunkify (List.range 7) ((3 : Nat) : Int)).map List.length) = true) :=
  ⟨by decide, chunkify_balanced (List.range 7) 3 (by decide)⟩

/-- Claim C5: for `total > 0` and `k ≥ 1`, with `k' = min(k, total)`,
`base = total div k'` and `rem = total mod k'`, `chunkify` returns exactly
`rem` buckets of size `base + 1` followed by `k' - rem` buckets of size
`base` — the remainder is front-loaded. -/
theorem chunkify_front_loaded (items : List α) (k : Nat)
    (h1 : 0 < items.length) (h2 : 1 ≤ k) :
    (chunkify items (k : Int)).map List.length =
      List.replicate (items.length % min k items.length)
        (items.length / min k items.length + 1) ++
      List.replicate (min k items.length - items.length % min k items.length)
        (items.length / min k items.length) := by
  rw [chunkify_map_length items (k : Int),
    effectiveBuckets_eq_min k items.length h2 h1]

/-- Claim C5 (witness): the theorem applied at the two scenarios of the
specification: `total = 15, k = 4` gives sizes `[4, 4, 4, 3]`, and
`total = 2, k = 5` gives two buckets of sizes `[1, 1]`. -/
theorem chunkify_front_loaded_witness :
    (chunkify (List.range 15) ((4 : Nat) : Int)).map List.length = [4, 4, 4, 3] ∧
    (chunkify (List.range 2) ((5 : Nat) : Int)).map List.length = [1, 1] := by
  constructor
  · rw [chunkify_front_loaded (List.range 15) 4 (by decide) (by decide)]
    decide
  · rw [chunkify_front_loaded (List.range 2) 5 (by decide) (by decide)]
    decide

/-- Claim C7 (counterexample): for `total = 0` the partitioner does not
return an empty sequence of bucket sizes: `chunkify` clamps the bucket count
to 1 and returns one empty bucket, so the size sequence is `[0]`, not `[]`. -/
theorem chunkify_empty_singleton :
    chunkify ([] : List Nat) 1 = [[]] ∧
    (chunkify ([] : List Nat) 1).map List.length ≠ [] := by
  decide

/-- Claim C7 (amended): for `total = 0` and any `k ≥ 1`, the pdf pipeline
checks for zero items before partitioning and produces zero output chunks
with a "nothing found" message and no error; `chunkify` itself, called on an
empty list, returns a single empty bucket (sizes `[0]`), not an empty
sequence; and the github-issues script ends its zero-item run with an error
exit (`SystemExit`), not a normal completion. -/
theorem zero_items_behavior (k : Int) (h : 1 ≤ k) :
    pdfMainChunks ([] : List Nat) k = [] ∧
    chunkify ([] : List Nat) k = [[]] ∧
    githubMain ([] : List Nat) 3 =
      Except.error "Nothing found – check label / repo spelling." := by
  refine ⟨by simp [pdfMainChunks], ?_, by simp [githubMain]⟩
  simp [chunkify, effectiveBuckets_zero_len k h, chunkifyLoop]

/-- Claim C7 (witness): the amended theorem applied at `k = 1`. -/
theorem zero_items_behavior_witness :
    (1 : Int) ≤ 1 ∧
    (pdfMainChunks ([] : List Nat) 1 = [] ∧
      chunkify ([] : List Nat) 1 = [[]] ∧
      githubMain ([] : List Nat) 3 =
        Except.error "Nothing found – check label / repo spelling.") :=
  ⟨by decide, zero_items_behavior 1 (by decide)⟩

/-- Claim C8 (counterexample): calling `chunkify` with `k = 0` does not fail
with any `InvalidArgument` condition — it returns a normal result, a single
bucket holding all the items (`chunkify` has no validation; `max(1, ...)`
silently clamps a non-positive bucket count to 1). -/
theorem chunkify_nonpositive_returns :
    chunkify [0, 1, 2] 0 = [[0, 1, 2]] := by
  decide

/-- Claim C8 (amended): for every item list and every `k ≤ 0`, `chunkify`
does not fail: it clamps the effective bucket count to 1 and returns a
single bucket containing all the items, in order. -/
theorem chunkify_clamps_nonpositive (items : List α) (n : Int) (h : n ≤ 0) :
    chunkify items n = [items] := by
  simp [chunkify, effectiveBuckets_of_nonpos n items.length h, chunkifyLoop]

/-- Claim C8 (witness): the amended theorem applied at a 3-item list and
`k = -2`. -/
theorem chunkify_clamps_nonpositive_witness :
    (-2 : Int) ≤ 0 ∧ chunkify [0, 1, 2] (-2) = [[0, 1, 2]] :=
  ⟨by decide, chunkify_clamps_nonpositive [0, 1, 2] (-2) (by decide)⟩

/-! ### Claims about the Resilient Fetcher -/

/-- Claim C2: a content source that fails transiently (an `HttpError` with a
status in `TRANSIENT_CODES`) on every attempt causes exactly `max_attempts`
download attempts, after which `safe_download_md` returns a value to the
caller (`Outcome.ok none`, the code's permanent-failure value) rather than
raising, and the retry loop is bounded; the logged retry events carry the
attempt numbers and reasons, the last one being the last attempt's reason. -/
theorem safeDownloadMd_allTransient_exhausts (src : Nat → FetchResult) (mr : Nat)
    (_h1 : 1 ≤ mr) (h2 : ∀ n, isTransient (src n) = true) :
    (safeDownloadMd src mr).attempts = mr ∧
    (safeDownloadMd src mr).outcome = Outcome.ok none ∧
    (safeDownloadMd src mr).events =
      (List.range' 1 mr).map (fun n => ⟨n, 2 ^ n, src n⟩) := by
  have h := safeDownloadAux_transient src mr mr 1 0 [] (fun n _ _ => h2 n)
  rw [safeDownloadMd, h]
  simp

/-- Claim C2 (witness): the theorem applied to a source that always fails
with a transient 503, with `max_attempts = 3`. -/
theorem safeDownloadMd_allTransient_exhausts_witness :
    1 ≤ 3 ∧
    ((safeDownloadMd src503 3).attempts = 3 ∧
      (safeDownloadMd src503 3).outcome = Outcome.ok none ∧
      (safeDownloadMd src503 3).events =
        (List.range' 1 3).map (fun n => ⟨n, 2 ^ n, src503 n⟩)) :=
  ⟨by decide, safeDownloadMd_allTransient_exhausts src503 3 (by decide) (fun _ => rfl)⟩

/-- Claim C6 (counterexample): not every non-transient failure makes the
fetcher fail immediately.  A failure that is not an `HttpError` — hence not
in the designated transient set — is retried: with it occurring on every
attempt and `max_attempts = 3`, three attempts are made (two back-off waits),
and the final failure is raised to the caller, not propagated as a returned
permanent-failure value; likewise a non-transient `HttpError` (404) is
raised, not returned. -/
theorem safeDownloadMd_generic_exception_retried :
    safeDownloadMd srcBoom 3 =
      ⟨Outcome.raised (.otherError "boom"),
        [⟨1, 2, .otherError "boom"⟩, ⟨2, 4, .otherError "boom"⟩], 3⟩ ∧
    safeDownloadMd src404 3 = ⟨Outcome.raised (.httpError 404), [], 1⟩ := by
  decide

/-- Claim C6 (amended): when attempt `j` fails with a non-transient
`HttpError` (status outside `TRANSIENT_CODES`), after transient failures on
the earlier attempts, `safe_download_md` performs no further retry attempt:
it stops at exactly `j` attempts and the failure propagates immediately — as
a raised exception, not as a returned permanent-failure value. -/
theorem safeDownloadMd_nontransient_http_raises (src : Nat → FetchResult)
    (mr j s : Nat) (h1 : 1 ≤ j) (h2 : j ≤ mr)
    (h3 : ∀ n, 1 ≤ n → n < j → isTransient (src n) = true)
    (h4 : src j = .httpError s) (h5 : TRANSIENT_CODES.contains s = false) :
    safeDownloadMd src mr =
      ⟨Outcome.raised (.httpError s),
        (List.range' 1 (j - 1)).map (fun n => ⟨n, 2 ^ n, src n⟩), j⟩ := by
  have h := safeDownloadAux_raise src mr j s h4 h5 mr 1 0 [] h1 (by omega) h3
  rw [safeDownloadMd, h]
  simp only [List.nil_append, RunResult.mk.injEq, true_and]
  omega

/-- Claim C6 (witness): the amended theorem applied to a source whose first
attempt fails with a transient 503 and whose second fails with a 404:
exactly 2 of the allowed 3 attempts happen, then the 404 is raised. -/
theorem safeDownloadMd_nontransient_http_raises_witness :
    (1 ≤ 2 ∧ 2 ≤ 3) ∧
    safeDownloadMd srcC6 3 =
      ⟨Outcome.raised (.httpError 404),
        (List.range' 1 (2 - 1)).map (fun n => ⟨n, 2 ^ n, srcC6 n⟩), 2⟩ :=
  ⟨⟨by decide, by decide⟩,
    safeDownloadMd_nontransient_http_raises srcC6 3 2 404 (by decide) (by decide)
      (by
        intro n hn1 hn2
        have hn : n = 1 := by omega
        subst hn
        rfl)
      rfl (by decide)⟩

/-- Claim C10: when every attempt up to and including the final allowed one
fails transiently, the fetcher still performs the full `2 ^ max_attempts`
back-off wait after the final attempt, before returning the failure outcome
(the wait is the last logged event and no attempt follows it: exactly
`max_attempts` attempts are made and the function then returns `None`). -/
theorem safeDownloadMd_final_transient_waits (src : Nat → FetchResult) (mr : Nat)
    (h1 : 1 ≤ mr) (h2 : ∀ n, 1 ≤ n → n ≤ mr → isTransient (src n) = true) :
    (safeDownloadMd src mr).events.getLast? = some ⟨mr, 2 ^ mr, src mr⟩ ∧
    (safeDownloadMd src mr).attempts = mr ∧
    (safeDownloadMd src mr).outcome = Outcome.ok none := by
  have h := safeDownloadAux_transient src mr mr 1 0 []
    (by intro n hn1 hn2; exact h2 n hn1 (by omega))
  rw [safeDownloadMd, h]
  refine ⟨?_, by simp, by simp⟩
  simp only [List.nil_append]
  obtain ⟨m, rfl⟩ : ∃ m, mr = m + 1 := ⟨mr - 1, by omega⟩
  rw [List.range'_1_concat, Nat.add_comm 1 m, List.map_append]
  simp [List.getLast?_concat]

/-- Claim C10 (witness): the theorem applied to a source that always fails
with a transient 503, with `max_attempts = 4`: the last event is the wait of
`2 ^ 4 = 16` seconds after attempt 4. -/
theorem safeDownloadMd_final_transient_waits_witness :
    1 ≤ 4 ∧
    ((safeDownloadMd src503 4).events.getLast? = some ⟨4, 2 ^ 4, src503 4⟩ ∧
      (safeDownloadMd src503 4).attempts = 4 ∧
      (safeDownloadMd src503 4).outcome = Outcome.ok none) :=
  ⟨by decide,
    safeDownloadMd_final_transient_waits src503 4 (by decide) (fun _ _ _ => rfl)⟩

/-! ### Claims about the Aggregation Writer and the Driver -/

/-- Claim C3 (counterexample): when item 3 of a five-item bucket permanently
fails with a non-transient 404, the bucket IS aborted: `safe_download_md`
raises, only items 1 and 2 are in the artifact, items 4 and 5 are never
written, the skip list is empty, and the exception escapes `merge_folder`
(the run fails instead of reporting success). -/
theorem mergeFolder_nontransient_aborts_bucket :
    mergeFolder fetchC3bad itemsC3 =
      ⟨true, [renderItem "t1" "f1", renderItem "t2" "f2"], [],
        some (.httpError 404)⟩ := by
  decide

/-- Claim C3 (amended): for a bucket of 5 items in which item 3 permanently
fails by exhausting all transient retries (`safe_download_md` returns
`None`), the artifact contains items 1, 2, 4, 5 in that order, item 3 is
recorded as skipped, no exception escapes and the run reports success; a
permanent failure that surfaces as a non-transient error instead aborts the
bucket (see the counterexample). -/
theorem mergeFolder_skip_and_continue (fetchOf : String → Nat → FetchResult)
    (t1 t2 t3 t4 t5 x1 x2 x4 x5 : String)
    (h1 : fetchOf "f1" 1 = .success x1)
    (h2 : fetchOf "f2" 1 = .success x2)
    (h3 : ∀ n, fetchOf "f3" n = .httpError 503)
    (h4 : fetchOf "f4" 1 = .success x4)
    (h5 : fetchOf "f5" 1 = .success x5) :
    mergeFolder fetchOf [(t1, "f1"), (t2, "f2"), (t3, "f3"), (t4, "f4"), (t5, "f5")] =
      ⟨true, [renderItem t1 x1, renderItem t2 x2, renderItem t4 x4, renderItem t5 x5],
        [(t3, "f3")], none⟩ := by
  have o1 := safeDownload_first_success (fetchOf "f1") x1 h1
  have o2 := safeDownload_first_success (fetchOf "f2") x2 h2
  have o4 := safeDownload_first_success (fetchOf "f4") x4 h4
  have o5 := safeDownload_first_success (fetchOf "f5") x5 h5
  have o3 : (safeDownloadMd (fetchOf "f3") MAX_RETRIES).outcome = Outcome.ok none := by
    have h := safeDownloadAux_transient (fetchOf "f3") MAX_RETRIES MAX_RETRIES 1 0 []
      (by
        intro n hn1 hn2
        rw [h3 n]
        decide)
    rw [safeDownloadMd, h]
  simp [mergeFolder, mergeLoop, o1, o2, o3, o4, o5]

/-- Claim C3 (witness): the amended theorem applied to the fetch behaviour
where `f3` always answers 503 and every other item succeeds at once. -/
theorem mergeFolder_skip_and_continue_witness :
    mergeFolder fetchC3good
        [("t1", "f1"), ("t2", "f2"), ("t3", "f3"), ("t4", "f4"), ("t5", "f5")] =
      ⟨true,
        [renderItem "t1" "f1", renderItem "t2" "f2", renderItem "t4" "f4",
          renderItem "t5" "f5"],
        [("t3", "f3")], none⟩ :=
  mergeFolder_skip_and_continue fetchC3good "t1" "t2" "t3" "t4" "t5"
    "f1" "f2" "f4" "f5" rfl rfl (fun _ => rfl) rfl rfl

/-- Claim C4 (counterexample): in the artifact of a two-item bucket where
both items are written, the separator block occurs exactly 2 times, not
`n - 1 = 1`: `merge_folder` writes `f"{SEPARATOR}..."` for every item, so a
separator appears before the first item as well. -/
theorem mergeFolder_separator_before_first :
    countOccs SEPARATOR (artifactContent c4run) = 2 ∧
    SEPARATOR.data.isPrefixOf (artifactContent c4run).data = true ∧
    c4run.writes.length = 2 ∧
    itemsC4.length = 2 := by
  decide

/-- Claim C4 (amended): in every output artifact whose bucket has `n` items
written, the separator block occurs exactly `n` times: once immediately
before each written item, including the first, and never after the last
(each `fout.write` call emits exactly `SEPARATOR ++ block`, and nothing else
is written). -/
theorem mergeFolder_separator_per_item (fetchOf : String → Nat → FetchResult)
    (texts : String → String) (items : List (String × String))
    (h : ∀ p ∈ items, fetchOf p.2 1 = .success (texts p.2)) :
    (mergeFolder fetchOf items).writes =
      items.map (fun p => SEPARATOR ++ ("# " ++ p.1 ++ "\n\n" ++ texts p.2)) ∧
    (mergeFolder fetchOf items).skipped = [] ∧
    (mergeFolder fetchOf items).raised = none := by
  rw [mergeFolder]
  by_cases hemp : items.isEmpty
  · rw [if_pos hemp]
    simp at hemp
    subst hemp
    simp
  · rw [if_neg hemp]
    rw [mergeLoop_all_success fetchOf texts items [] [] h]
    simp [renderItem]

/-- Claim C4 (witness): the amended theorem applied to the two-item bucket
with all fetches succeeding. -/
theorem mergeFolder_separator_per_item_witness :
    (mergeFolder fetchC4 itemsC4).writes =
      itemsC4.map (fun p => SEPARATOR ++ ("# " ++ p.1 ++ "\n\n" ++ textsC4 p.2)) ∧
    (mergeFolder fetchC4 itemsC4).skipped = [] ∧
    (mergeFolder fetchC4 itemsC4).raised = none :=
  mergeFolder_separator_per_item fetchC4 textsC4 itemsC4 (by decide)

/-- Claim C9 (counterexample): a run over two folders in which the second
folder hits a fatal 404 on its second item leaves a partially written
artifact for that in-progress folder: the file was created and contains the
first item's block, even though the run ended in a raised exception. -/
theorem runFolders_leaves_incomplete_artifact :
    runFolders fetchC9 foldersC9 =
      [("A", ⟨true, [renderItem "x" "a1"], [], none⟩),
       ("B", ⟨true, [renderItem "y" "b1"], [], some (.httpError 404)⟩)] := by
  decide

/-- Claim C9 (amended): a run that hits a fatal error during bucket
processing stops at that bucket: no later bucket produces an artifact, the
artifacts of buckets fully closed before the failure remain, but the bucket
in progress does leave an output artifact behind — its file was created
(and holds whatever was written before the failure), because the `with`
block closes the file without removing it. -/
theorem runFolders_fatal_stops_run (fetchOf : String → Nat → FetchResult)
    (fname : String) (items : List (String × String))
    (rest : List (String × List (String × String))) (e : FetchResult)
    (h : (mergeFolder fetchOf items).raised = some e) :
    runFolders fetchOf ((fname, items) :: rest) =
      [(fname, mergeFolder fetchOf items)] ∧
    (mergeFolder fetchOf items).created = true := by
  constructor
  · rw [runFolders]
    simp [h]
  · by_cases hemp : items.isEmpty
    · rw [mergeFolder, if_pos hemp] at h
      simp at h
    · rw [mergeFolder, if_neg hemp] at h ⊢
      exact mergeLoop_created fetchOf items [] []

/-- Claim C9 (witness): the amended theorem applied to the single folder
whose second item answers a fatal 404. -/
theorem runFolders_fatal_stops_run_witness :
    runFolders fetchC9 [("B", [("y", "b1"), ("z", "b2")])] =
      [("B", mergeFolder fetchC9 [("y", "b1"), ("z", "b2")])] ∧
    (mergeFolder fetchC9 [("y", "b1"), ("z", "b2")]).created = true :=
  runFolders_fatal_stops_run fetchC9 "B" [("y", "b1"), ("z", "b2")] []
    (.httpError 404) (by decide)
